import Mathlib

/-!
Verification of `src/services/PaymentService.js` (ChatAstro payment core).

The JavaScript service is shallowly embedded: its in-memory `Map`s become
insertion-ordered association lists (`List (String × α)`), JS `Map.get` /
`Map.set` become `mapGet` / `mapSet` (set replaces the first entry in place,
keeping its position, and appends otherwise — the observable semantics of a
JS `Map` whose keys are unique), thrown `Error`s become `Except String`
results carrying the exact wrapped message strings, and wall-clock reads
(`Date.now()`, `new Date().toISOString()`) become an explicit `now : Nat`
argument (milliseconds). The external `crypto.createHmac` primitive is
passed in as a function parameter `hmac : String → String → String`; the
code only ever compares its output for string equality.
-/

namespace PaymentService

/-- One plan of `this.plans` (`{ questions, price, name }`). -/
structure Plan where
  questions : Nat
  price : Nat
  name : String
  deriving DecidableEq, Repr

/-- The `userDetails` argument (`name` / `mobile` / `email`); a missing JS
field is the empty string (both are falsy where the code tests them). -/
structure UserDetails where
  name : String
  mobile : String
  email : String
  deriving DecidableEq, Repr

/-- The `notes` object built by `createOrder`. -/
structure OrderNotes where
  userId : String
  planType : String
  userName : String
  userMobile : String
  deriving DecidableEq, Repr

/-- The `errorData` object passed to `handlePaymentFailure`; only its
`description` is ever read. -/
structure ErrorData where
  description : String
  deriving DecidableEq, Repr

/-- An order record as stored in `this.orders`: the spread of `orderData`
plus `userId`, `planType`, `userDetails`, `plan`. Fields the code only adds
later (`paymentId`, `error`, `failedAt`) are `Option`s that start `none`.
`created_at` is seconds, `failedAt` milliseconds. -/
structure Order where
  id : String
  amount : Nat
  currency : String
  status : String
  attempts : Nat
  created_at : Nat
  notes : OrderNotes
  userId : String
  planType : String
  userDetails : UserDetails
  plan : Plan
  paymentId : Option String
  error : Option ErrorData
  failedAt : Option Nat
  deriving DecidableEq, Repr

/-- A payment record as stored in `this.payments` by `verifyPayment`.
`createdAt` / `verifiedAt` are milliseconds. -/
structure Payment where
  id : String
  orderId : String
  amount : Nat
  currency : String
  status : String
  method : String
  userId : String
  planType : String
  plan : Plan
  createdAt : Nat
  verifiedAt : Nat
  deriving DecidableEq, Repr

/-- The two in-memory `Map`s of the service, in insertion order. -/
structure ServiceState where
  orders : List (String × Order)
  payments : List (String × Payment)
  deriving DecidableEq, Repr

/-- JS `Map.get`: the value of the first (unique) entry with the key. -/
def mapGet {α : Type} : List (String × α) → String → Option α
  | [], _ => none
  | (k', v) :: rest, k => if k' = k then some v else mapGet rest k

/-- JS `Map.set`: replace the first entry with the key in place (a JS `Map`
keeps the original insertion position on overwrite), append if absent. -/
def mapSet {α : Type} : List (String × α) → String → α → List (String × α)
  | [], k, v => [(k, v)]
  | (k', v') :: rest, k, v =>
    if k' = k then (k, v) :: rest else (k', v') :: mapSet rest k v

/-- Number of entries with a given key. -/
def countKey {α : Type} : List (String × α) → String → Nat
  | [], _ => 0
  | (k', _) :: rest, k => (if k' = k then 1 else 0) + countKey rest k

/-- `this.plans` lookup: the four hardcoded plan configurations. -/
def plans (planType : String) : Option Plan :=
  if planType = "basic" then some ⟨5, 199, "Basic Plan"⟩
  else if planType = "standard" then some ⟨10, 299, "Standard Plan"⟩
  else if planType = "premium" then some ⟨20, 399, "Premium Plan"⟩
  else if planType = "report" then some ⟨0, 999, "Full Report"⟩
  else none

/-- The gateway-facing descriptor returned by `createOrder` (the data
fields of the returned `order` object; the `modal.ondismiss` callback and
fixed theme/image strings carry no state). -/
structure CreateOrderResult where
  id : String
  amount : Nat
  currency : String
  key : String
  name : String
  description : String
  prefillName : String
  prefillContact : String
  prefillEmail : String
  deriving DecidableEq, Repr

/-- `createOrder(userId, planType, userDetails)`. The generated
`order_${Date.now()}_${random}` id and `Date.now()` are the explicit
`orderId` / `nowMs` arguments; `created_at` is `Math.floor(nowMs / 1000)`.
An unknown plan throws, wrapped by the catch block. -/
def createOrder (keyId : String) (st : ServiceState) (userId planType : String)
    (userDetails : UserDetails) (orderId : String) (nowMs : Nat) :
    ServiceState × Except String CreateOrderResult :=
  match plans planType with
  | none => (st, Except.error "Failed to create payment order: Invalid plan type")
  | some plan =>
    let order : Order :=
      { id := orderId
        amount := plan.price * 100
        currency := "INR"
        status := "created"
        attempts := 0
        created_at := nowMs / 1000
        notes :=
          { userId := userId
            planType := planType
            userName := if userDetails.name = "" then "User" else userDetails.name
            userMobile := userDetails.mobile }
        userId := userId
        planType := planType
        userDetails := userDetails
        plan := plan
        paymentId := none
        error := none
        failedAt := none }
    ({ st with orders := mapSet st.orders orderId order },
      Except.ok
        { id := orderId
          amount := plan.price * 100
          currency := "INR"
          key := keyId
          name := "ChatAstro"
          description := plan.name ++ " - " ++ toString plan.questions ++ " Questions"
          prefillName := userDetails.name
          prefillContact := userDetails.mobile
          prefillEmail := userDetails.email })

/-- The `paymentData` argument of `verifyPayment`; a missing JS field is
the empty string (the code only tests falsiness). -/
structure PaymentData where
  razorpay_order_id : String
  razorpay_payment_id : String
  razorpay_signature : String
  deriving DecidableEq, Repr

/-- `verifyPayment(paymentData)`: missing fields, then order lookup, then
HMAC check over `orderId|paymentId` with the key secret; on success a
payment record is stored under the payment id, and the order is updated to
`paid` with `paymentId` set. Thrown errors (wrapped by the catch block)
leave the state exactly as it was. -/
def verifyPayment (hmac : String → String → String) (keySecret : String)
    (st : ServiceState) (pd : PaymentData) (nowMs : Nat) :
    ServiceState × Except String (Payment × Order) :=
  if pd.razorpay_order_id = "" ∨ pd.razorpay_payment_id = "" ∨ pd.razorpay_signature = "" then
    (st, Except.error "Payment verification failed: Missing payment verification data")
  else
    match mapGet st.orders pd.razorpay_order_id with
    | none => (st, Except.error "Payment verification failed: Order not found")
    | some order =>
      let generated_signature :=
        hmac keySecret (pd.razorpay_order_id ++ "|" ++ pd.razorpay_payment_id)
      if generated_signature ≠ pd.razorpay_signature then
        (st, Except.error "Payment verification failed: Invalid payment signature")
      else
        let paymentRecord : Payment :=
          { id := pd.razorpay_payment_id
            orderId := pd.razorpay_order_id
            amount := order.amount
            currency := order.currency
            status := "captured"
            method := "card"
            userId := order.userId
            planType := order.planType
            plan := order.plan
            createdAt := nowMs
            verifiedAt := nowMs }
        let order' : Order :=
          { order with status := "paid", paymentId := some pd.razorpay_payment_id }
        ({ orders := mapSet st.orders pd.razorpay_order_id order'
           payments := mapSet st.payments pd.razorpay_payment_id paymentRecord },
          Except.ok (paymentRecord, order'))

/-- The `{ success: false, message, error }` object returned by
`handlePaymentFailure` (success is the literal `false` in the source). -/
structure FailureResponse where
  message : String
  error : ErrorData
  deriving DecidableEq, Repr

/-- `handlePaymentFailure(orderId, errorData)`: if the order exists its
status is set to `failed` (unconditionally — there is no check of the
current status), `error` and `failedAt` are recorded; an unknown order id
is silently ignored. The `attempts` field is never touched. -/
def handlePaymentFailure (st : ServiceState) (orderId : String)
    (errorData : ErrorData) (nowMs : Nat) : ServiceState × FailureResponse :=
  let st' :=
    match mapGet st.orders orderId with
    | none => st
    | some order =>
      { st with
        orders := mapSet st.orders orderId
          { order with status := "failed", error := some errorData, failedAt := some nowMs } }
  (st', { message := "Payment failed. Please try again.", error := errorData })

/-- The `order` sub-object of a `getPaymentStatus` snapshot. -/
structure StatusOrderView where
  id : String
  amount : Nat
  status : String
  createdAt : Nat
  deriving DecidableEq, Repr

/-- The `payment` sub-object of a `getPaymentStatus` snapshot. -/
structure StatusPaymentView where
  id : String
  status : String
  method : String
  verifiedAt : Nat
  deriving DecidableEq, Repr

/-- A `getPaymentStatus` snapshot (`{ order, payment }`). -/
structure StatusView where
  order : StatusOrderView
  payment : Option StatusPaymentView
  deriving DecidableEq, Repr

/-- `getPaymentStatus(orderId)`: `null` for an unknown order; otherwise a
snapshot whose `order.amount` is the stored `order.amount` verbatim (minor
units) and whose `payment` part is looked up through `order.paymentId`. -/
def getPaymentStatus (st : ServiceState) (orderId : String) : Option StatusView :=
  match mapGet st.orders orderId with
  | none => none
  | some order =>
    let payment :=
      match order.paymentId with
      | none => none
      | some pid => mapGet st.payments pid
    some
      { order := { id := order.id, amount := order.amount, status := order.status,
                   createdAt := order.created_at }
        payment := payment.map fun p =>
          { id := p.id, status := p.status, method := p.method, verifiedAt := p.verifiedAt } }

/-- One element pushed onto `userPayments` by `getUserPayments`; its
`amount` is `payment.amount / 100` (exact whenever the stored amount is a
multiple of 100, which every amount written by this service is). -/
structure HistoryEntry where
  id : String
  orderId : String
  amount : Nat
  planType : String
  planName : String
  questions : Nat
  status : String
  createdAt : Nat
  deriving DecidableEq, Repr

/-- Projection of a stored payment to its history entry. -/
def historyEntryOf (p : Payment) : HistoryEntry :=
  { id := p.id
    orderId := p.orderId
    amount := p.amount / 100
    planType := p.planType
    planName := p.plan.name
    questions := p.plan.questions
    status := p.status
    createdAt := p.createdAt }

/-- One step of the stable descending sort: insert `x` before the first
element whose `createdAt` is not greater, i.e. after every strictly newer
element and before every tie. This is the unique stable result of the JS
`sort((a, b) => new Date(b.createdAt) - new Date(a.createdAt))`
(`Array.prototype.sort` is stable per ES2019). -/
def insertDescByCreatedAt (x : HistoryEntry) :
    List HistoryEntry → List HistoryEntry
  | [] => [x]
  | y :: ys =>
    if x.createdAt < y.createdAt then y :: insertDescByCreatedAt x ys
    else x :: y :: ys

/-- Stable sort by `createdAt` descending (insertion order kept on ties). -/
def sortDescByCreatedAt : List HistoryEntry → List HistoryEntry
  | [] => []
  | x :: xs => insertDescByCreatedAt x (sortDescByCreatedAt xs)

/-- The unsorted `userPayments` array: iterate `this.payments.values()` in
insertion order, keep entries whose `userId` matches, project each. -/
def userPaymentsOf (st : ServiceState) (userId : String) : List HistoryEntry :=
  (st.payments.map Prod.snd).filterMap fun p =>
    if p.userId = userId then some (historyEntryOf p) else none

/-- `getUserPayments(userId)`: the user's payment projections sorted by
creation time descending. -/
def getUserPayments (st : ServiceState) (userId : String) : List HistoryEntry :=
  sortDescByCreatedAt (userPaymentsOf st userId)

/-- `validateWebhook(body, signature)`: HMAC of the raw body with the
webhook secret, compared for equality. -/
def validateWebhook (hmac : String → String → String) (webhookSecret : String)
    (body : String) (signature : String) : Bool :=
  hmac webhookSecret body = signature

/-- The `{ event, payload }` envelope given to `processWebhook`; the
payload is kept opaque (a raw string) because no existing code path ever
consumes it. -/
structure WebhookEventData where
  event : String
  payload : String
  deriving DecidableEq, Repr

/-- `processWebhook(eventData)`: the three recognized event types each call
a method the class does not define (`handlePaymentCaptured`,
`handlePaymentFailed`, `handleOrderPaid` — none of them exists;
`handlePaymentFailure` is the closest, differently named). In JavaScript
reading the absent property yields `undefined` and calling it throws a
`TypeError`, which the catch block rethrows, so every recognized event
errors before touching any store; only the `default` branch (unrecognized
types) logs and returns `{ success: true }`. -/
def processWebhook (st : ServiceState) (eventData : WebhookEventData) :
    ServiceState × Except String Unit :=
  if eventData.event = "payment.captured" then
    (st, Except.error "TypeError: this.handlePaymentCaptured is not a function")
  else if eventData.event = "payment.failed" then
    (st, Except.error "TypeError: this.handlePaymentFailed is not a function")
  else if eventData.event = "order.paid" then
    (st, Except.error "TypeError: this.handleOrderPaid is not a function")
  else
    (st, Except.ok ())

/-! ### Map lemmas -/

theorem mapGet_mapSet_self {α : Type} (m : List (String × α)) (k : String) (v : α) :
    mapGet (mapSet m k v) k = some v := by
  induction m with
  | nil => simp [mapGet, mapSet]
  | cons hd tl ih =>
    obtain ⟨k', v'⟩ := hd
    by_cases h : k' = k
    · simp [mapGet, mapSet, h]
    · simp [mapGet, mapSet, h, ih]

theorem mapSet_of_mapGet_eq {α : Type} (m : List (String × α)) (k : String) (v : α)
    (h : mapGet m k = some v) : mapSet m k v = m := by
  induction m with
  | nil => simp [mapGet] at h
  | cons hd tl ih =>
    obtain ⟨k', v'⟩ := hd
    by_cases hk : k' = k
    · subst hk
      simp [mapGet] at h
      simp [mapSet, h]
    · simp [mapGet, hk] at h
      simp [mapSet, hk, ih h]

theorem countKey_mapSet {α : Type} (m : List (String × α)) (k : String) (v : α) :
    countKey (mapSet m k v) k = if countKey m k = 0 then 1 else countKey m k := by
  induction m with
  | nil => simp [countKey, mapSet]
  | cons hd tl ih =>
    obtain ⟨k', v'⟩ := hd
    by_cases hk : k' = k
    · simp [mapSet, countKey, hk]
    · simp [mapSet, countKey, hk, ih]

theorem countKey_eq_zero_of_mapGet_none {α : Type} (m : List (String × α)) (k : String)
    (h : mapGet m k = none) : countKey m k = 0 := by
  induction m with
  | nil => simp [countKey]
  | cons hd tl ih =>
    obtain ⟨k', v'⟩ := hd
    by_cases hk : k' = k
    · simp [mapGet, hk] at h
    · simp [mapGet, hk] at h
      simp [countKey, hk, ih h]

theorem mem_of_mapGet_eq_some {α : Type} (m : List (String × α)) (k : String) (v : α)
    (h : mapGet m k = some v) : (k, v) ∈ m := by
  induction m with
  | nil => simp [mapGet] at h
  | cons hd tl ih =>
    obtain ⟨k', v'⟩ := hd
    by_cases hk : k' = k
    · subst hk
      simp [mapGet] at h
      simp [h]
    · simp [mapGet, hk] at h
      exact List.mem_cons_of_mem _ (ih h)

/-! ### Sorting lemmas for `getUserPayments` -/

theorem perm_insertDescByCreatedAt (x : HistoryEntry) (l : List HistoryEntry) :
    (insertDescByCreatedAt x l).Perm (x :: l) := by
  induction l with
  | nil => simp [insertDescByCreatedAt]
  | cons y ys ih =>
    rw [insertDescByCreatedAt]
    by_cases h : x.createdAt < y.createdAt
    · simp only [h, if_pos]
      exact (ih.cons y).trans (List.Perm.swap x y ys)
    · simp [h]

theorem perm_sortDescByCreatedAt (l : List HistoryEntry) :
    (sortDescByCreatedAt l).Perm l := by
  induction l with
  | nil => simp [sortDescByCreatedAt]
  | cons x xs ih =>
    rw [sortDescByCreatedAt]
    exact (perm_insertDescByCreatedAt x (sortDescByCreatedAt xs)).trans (ih.cons x)

theorem pairwise_insertDescByCreatedAt (x : HistoryEntry) (l : List HistoryEntry)
    (h : l.Pairwise (fun a b => b.createdAt ≤ a.createdAt)) :
    (insertDescByCreatedAt x l).Pairwise (fun a b => b.createdAt ≤ a.createdAt) := by
  induction l with
  | nil => simp [insertDescByCreatedAt]
  | cons y ys ih =>
    rw [List.pairwise_cons] at h
    rw [insertDescByCreatedAt]
    by_cases hc : x.createdAt < y.createdAt
    · rw [if_pos hc, List.pairwise_cons]
      refine ⟨fun z hz => ?_, ih h.2⟩
      rcases List.mem_cons.mp ((perm_insertDescByCreatedAt x ys).mem_iff.mp hz) with hz | hz
      · subst hz
        exact Nat.le_of_lt hc
      · exact h.1 z hz
    · rw [if_neg hc, List.pairwise_cons]
      refine ⟨fun z hz => ?_, ?_⟩
      · rcases List.mem_cons.mp hz with hz | hz
        · subst hz
          omega
        · have := h.1 z hz
          omega
      · rw [List.pairwise_cons]
        exact h

theorem pairwise_sortDescByCreatedAt (l : List HistoryEntry) :
    (sortDescByCreatedAt l).Pairwise (fun a b => b.createdAt ≤ a.createdAt) := by
  induction l with
  | nil => simp [sortDescByCreatedAt]
  | cons x xs ih =>
    rw [sortDescByCreatedAt]
    exact pairwise_insertDescByCreatedAt x _ ih

theorem filter_insertDescByCreatedAt (x : HistoryEntry) (l : List HistoryEntry) (t : Nat) :
    (insertDescByCreatedAt x l).filter (fun e => e.createdAt = t) =
      if x.createdAt = t then x :: l.filter (fun e => e.createdAt = t)
      else l.filter (fun e => e.createdAt = t) := by
  induction l with
  | nil =>
    by_cases hx : x.createdAt = t <;> simp [insertDescByCreatedAt, List.filter, hx]
  | cons y ys ih =>
    rw [insertDescByCreatedAt]
    by_cases hc : x.createdAt < y.createdAt
    · simp only [hc, if_pos]
      by_cases hy : y.createdAt = t
      · have hx : ¬ x.createdAt = t := by omega
        simp [List.filter_cons, hy, hx, ih]
      · simp [List.filter_cons, hy, ih]
    · simp only [hc, if_neg]
      by_cases hx : x.createdAt = t <;> simp [List.filter_cons, hx]

theorem filter_sortDescByCreatedAt (l : List HistoryEntry) (t : Nat) :
    (sortDescByCreatedAt l).filter (fun e => e.createdAt = t) =
      l.filter (fun e => e.createdAt = t) := by
  induction l with
  | nil => simp [sortDescByCreatedAt]
  | cons x xs ih =>
    rw [sortDescByCreatedAt, filter_insertDescByCreatedAt]
    by_cases hx : x.createdAt = t <;> simp [List.filter_cons, hx, ih]

/-! ### A concrete run of the service, used as the instantiating scenario.

`hmacDemo` stands in for the external `crypto.createHmac` primitive (the
code only ever compares its output for string equality, so any concrete
keyed function instantiates the parameter). -/

def hmacDemo (secret msg : String) : String := secret ++ ":" ++ msg

def demoDetails : UserDetails :=
  { name := "Anu", mobile := "9999", email := "anu@example.com" }

/-- State after `createOrder("u1", "standard", …)` at `Date.now() = 5000`
with generated order id `order_1`. -/
def demoSt1 : ServiceState :=
  (createOrder "key_demo" ⟨[], []⟩ "u1" "standard" demoDetails "order_1" 5000).1

/-- The order record `demoSt1` stores under `order_1`. -/
def demoOrder1 : Order :=
  { id := "order_1", amount := 29900, currency := "INR", status := "created",
    attempts := 0, created_at := 5,
    notes := { userId := "u1", planType := "standard", userName := "Anu", userMobile := "9999" },
    userId := "u1", planType := "standard", userDetails := demoDetails,
    plan := { questions := 10, price := 299, name := "Standard Plan" },
    paymentId := none, error := none, failedAt := none }

/-- A correctly signed confirmation for `order_1` / `pay_1`. -/
def demoPd : PaymentData :=
  { razorpay_order_id := "order_1", razorpay_payment_id := "pay_1",
    razorpay_signature := hmacDemo "secret" "order_1|pay_1" }

/-- State after the first successful `verifyPayment` at `Date.now() = 6000`. -/
def demoSt2 : ServiceState := (verifyPayment hmacDemo "secret" demoSt1 demoPd 6000).1

/-- State after `handlePaymentFailure` on the still-unpaid `order_1`. -/
def demoStFailed : ServiceState :=
  (handlePaymentFailure demoSt1 "order_1" ⟨"Payment was declined"⟩ 5500).1


/-- The order record `demoSt2` stores under `order_1` (paid). -/
def demoOrder1Paid : Order :=
  { demoOrder1 with status := "paid", paymentId := some "pay_1" }

/-- The payment record `demoSt2` stores under `pay_1`. -/
def demoPayment1 : Payment :=
  { id := "pay_1", orderId := "order_1", amount := 29900, currency := "INR",
    status := "captured", method := "card", userId := "u1", planType := "standard",
    plan := { questions := 10, price := 299, name := "Standard Plan" },
    createdAt := 6000, verifiedAt := 6000 }

/-- Inversion of a successful `verifyPayment` run: the returned and stored
payment record copies `amount` / `currency` (and user/plan data) from the
stored order, both timestamps are the call time, and the order is rewritten
to `paid` with `paymentId` set; nothing else changes. -/
theorem verifyPayment_ok_spec (hmac : String → String → String) (keySecret : String)
    (st : ServiceState) (pd : PaymentData) (nowMs : Nat) (st' : ServiceState)
    (p : Payment) (o' : Order) (o : Order)
    (ho : mapGet st.orders pd.razorpay_order_id = some o)
    (hv : verifyPayment hmac keySecret st pd nowMs = (st', Except.ok (p, o'))) :
    p = { id := pd.razorpay_payment_id, orderId := pd.razorpay_order_id,
          amount := o.amount, currency := o.currency, status := "captured",
          method := "card", userId := o.userId, planType := o.planType, plan := o.plan,
          createdAt := nowMs, verifiedAt := nowMs } ∧
    o' = { o with status := "paid", paymentId := some pd.razorpay_payment_id } ∧
    st' = { orders := mapSet st.orders pd.razorpay_order_id o',
            payments := mapSet st.payments pd.razorpay_payment_id p } := by
  simp only [verifyPayment] at hv
  split at hv
  · simp at hv
  · split at hv
    next heq => simp [heq] at hv
    next order heq =>
      rw [ho] at heq
      injection heq with heq
      subst heq
      split at hv
      · simp at hv
      · rw [Prod.mk.injEq] at hv
        obtain ⟨hst', hok⟩ := hv
        injection hok with hok
        rw [Prod.mk.injEq] at hok
        obtain ⟨hp, ho'⟩ := hok
        subst hp
        subst ho'
        exact ⟨rfl, rfl, hst'.symm⟩

/-- Claim C3: for every stored order and every confirmation whose supplied
signature differs from the HMAC of `orderId|paymentId` under the
client-confirmation secret, `verifyPayment` fails with the
invalid-signature error, the state (hence the stored order, hence its
`created` status) is unchanged, and no payment record is created. -/
theorem C3_invalid_signature_rejected (hmac : String → String → String)
    (keySecret : String) (st : ServiceState) (pd : PaymentData) (nowMs : Nat) (o : Order)
    (h1 : pd.razorpay_order_id ≠ "") (h2 : pd.razorpay_payment_id ≠ "")
    (h3 : pd.razorpay_signature ≠ "")
    (ho : mapGet st.orders pd.razorpay_order_id = some o)
    (hsig : hmac keySecret (pd.razorpay_order_id ++ "|" ++ pd.razorpay_payment_id) ≠
      pd.razorpay_signature) :
    verifyPayment hmac keySecret st pd nowMs =
      (st, Except.error "Payment verification failed: Invalid payment signature") ∧
    (mapGet (verifyPayment hmac keySecret st pd nowMs).1.orders
        pd.razorpay_order_id).map Order.status = some o.status ∧
    countKey (verifyPayment hmac keySecret st pd nowMs).1.payments
      pd.razorpay_payment_id = countKey st.payments pd.razorpay_payment_id := by
  have hmain : verifyPayment hmac keySecret st pd nowMs =
      (st, Except.error "Payment verification failed: Invalid payment signature") := by
    simp [verifyPayment, h1, h2, h3, ho, hsig]
  refine ⟨hmain, ?_, ?_⟩
  · rw [hmain]
    simp [ho]
  · rw [hmain]

/-- Witness for C3: a forged signature against the freshly created demo
order is rejected with the exact error and the state is untouched. -/
theorem C3_invalid_signature_rejected_witness :
    verifyPayment hmacDemo "secret" demoSt1 ⟨"order_1", "pay_1", "forged"⟩ 6000 =
      (demoSt1, Except.error "Payment verification failed: Invalid payment signature") :=
  (C3_invalid_signature_rejected hmacDemo "secret" demoSt1
    ⟨"order_1", "pay_1", "forged"⟩ 6000 demoOrder1
    (by decide) (by decide) (by decide) (by decide) (by decide)).1

/-- Claim C8: for every confirmation (all three fields supplied) whose
order id is not in the order store, `verifyPayment` fails with the
order-not-found error — independently of the signature and of the HMAC
function, i.e. before any signature check — and the state is unchanged. -/
theorem C8_order_not_found (hmac : String → String → String) (keySecret : String)
    (st : ServiceState) (pd : PaymentData) (nowMs : Nat)
    (h1 : pd.razorpay_order_id ≠ "") (h2 : pd.razorpay_payment_id ≠ "")
    (h3 : pd.razorpay_signature ≠ "")
    (ho : mapGet st.orders pd.razorpay_order_id = none) :
    verifyPayment hmac keySecret st pd nowMs =
      (st, Except.error "Payment verification failed: Order not found") := by
  simp [verifyPayment, h1, h2, h3, ho]

/-- Witness for C8: an unknown order id is rejected with the exact error
even though the supplied signature would have passed the HMAC check. -/
theorem C8_order_not_found_witness :
    verifyPayment hmacDemo "secret" demoSt1
      ⟨"order_404", "pay_1", hmacDemo "secret" "order_404|pay_1"⟩ 6000 =
      (demoSt1, Except.error "Payment verification failed: Order not found") :=
  C8_order_not_found hmacDemo "secret" demoSt1
    ⟨"order_404", "pay_1", hmacDemo "secret" "order_404|pay_1"⟩ 6000
    (by decide) (by decide) (by decide) (by decide)

/-- Counterexample to claim C2: `order_1` in `demoSt2` is `paid`, yet
`handlePaymentFailure` on it rewrites the status to `failed` — the code
has no terminal-state guard. -/
theorem C2_counterexample :
    (mapGet demoSt2.orders "order_1").map Order.status = some "paid" ∧
    (mapGet (handlePaymentFailure demoSt2 "order_1" ⟨"card declined"⟩ 8000).1.orders
        "order_1").map Order.status = some "failed" := by decide

/-- Amended claim C2: `handlePaymentFailure` marks any existing order
`failed` regardless of its current status — including `paid` — recording
the error detail; only the `payment.failed` webhook path leaves state
unchanged, and merely because its handler method is undefined and the call
throws. -/
theorem C2_failure_overwrites_paid_status (st : ServiceState) (orderId : String)
    (o : Order) (ed : ErrorData) (nowMs : Nat)
    (ho : mapGet st.orders orderId = some o) :
    (handlePaymentFailure st orderId ed nowMs).1.orders =
      mapSet st.orders orderId
        { o with status := "failed", error := some ed, failedAt := some nowMs } ∧
    mapGet (handlePaymentFailure st orderId ed nowMs).1.orders orderId =
      some { o with status := "failed", error := some ed, failedAt := some nowMs } ∧
    (∀ (st' : ServiceState) (pl : String),
      processWebhook st' ⟨"payment.failed", pl⟩ =
        (st', Except.error "TypeError: this.handlePaymentFailed is not a function")) := by
  refine ⟨?_, ?_, ?_⟩
  · simp [handlePaymentFailure, ho]
  · simp [handlePaymentFailure, ho, mapGet_mapSet_self]
  · intro st' pl
    simp [processWebhook]

/-- Witness for the amended C2: applying the failure handler to the paid
demo order stores it as `failed` with the error detail recorded. -/
theorem C2_failure_overwrites_paid_status_witness :
    mapGet (handlePaymentFailure demoSt2 "order_1" ⟨"card declined"⟩ 8000).1.orders
      "order_1" =
      some { demoOrder1Paid with
              status := "failed", error := some ⟨"card declined"⟩, failedAt := some 8000 } :=
  (C2_failure_overwrites_paid_status demoSt2 "order_1" demoOrder1Paid
    ⟨"card declined"⟩ 8000 (by decide)).2.1

/-- Counterexample to claim C7: on the unpaid (`created`) demo order the
failed transition leaves `attempts` at `0` — it is not incremented to `1`
as the claim requires. -/
theorem C7_counterexample :
    (mapGet demoSt1.orders "order_1").map Order.status = some "created" ∧
    (mapGet demoSt1.orders "order_1").map Order.attempts = some 0 ∧
    (mapGet (handlePaymentFailure demoSt1 "order_1" ⟨"declined"⟩ 5500).1.orders
        "order_1").map Order.attempts = some 0 := by decide

/-- Amended claim C7: the failed transition sets status to `failed` and
records the failure detail, but leaves the `attempts` counter unchanged —
no operation of the service ever modifies `attempts` (the successful
verification keeps it too), so it is trivially non-decreasing, constant at
its creation value `0`. -/
theorem C7_failure_keeps_attempts (st : ServiceState) (orderId : String) (o : Order)
    (ed : ErrorData) (nowMs : Nat) (ho : mapGet st.orders orderId = some o) :
    (mapGet (handlePaymentFailure st orderId ed nowMs).1.orders orderId =
      some { o with status := "failed", error := some ed, failedAt := some nowMs }) ∧
    ({ o with status := "failed", error := some ed, failedAt := some nowMs } : Order).attempts
      = o.attempts ∧
    (∀ (hmac : String → String → String) (keySecret : String) (pd : PaymentData)
        (st' : ServiceState) (p : Payment) (o' : Order),
      mapGet st.orders pd.razorpay_order_id = some o →
      verifyPayment hmac keySecret st pd nowMs = (st', Except.ok (p, o')) →
      o'.attempts = o.attempts) := by
  refine ⟨?_, rfl, ?_⟩
  · simp [handlePaymentFailure, ho, mapGet_mapSet_self]
  · intro hmac keySecret pd st' p o' ho' hv
    obtain ⟨-, ho'', -⟩ := verifyPayment_ok_spec hmac keySecret st pd nowMs st' p o' o ho' hv
    rw [ho'']

/-- Witness for the amended C7: failing the demo order records the detail
and keeps `attempts` at `0`. -/
theorem C7_failure_keeps_attempts_witness :
    mapGet (handlePaymentFailure demoSt1 "order_1" ⟨"declined"⟩ 5500).1.orders "order_1" =
      some { demoOrder1 with
              status := "failed", error := some ⟨"declined"⟩, failedAt := some 5500 } :=
  (C7_failure_keeps_attempts demoSt1 "order_1" demoOrder1 ⟨"declined"⟩ 5500
    (by decide)).1

/-- The payment record stored when the demo confirmation is replayed at
time 7000: same data, fresh timestamps. -/
def demoPayment1Replay : Payment :=
  { demoPayment1 with createdAt := 7000, verifiedAt := 7000 }

/-- Counterexample to claim C1: `order_1` in `demoSt2` is paid with
`paymentId = pay_1`, yet replaying the very same valid confirmation is not
a no-op returning the existing `Payment`: the first response's payment
carries `verifiedAt = 6000` (as does the stored record) while the replayed
response's payment carries `verifiedAt = 7000`, so the two responses are
not identical and the returned record is not the existing one. -/
theorem C1_counterexample :
    (mapGet demoSt2.orders "order_1").map Order.status = some "paid" ∧
    (mapGet demoSt2.orders "order_1").map Order.paymentId = some (some "pay_1") ∧
    ((verifyPayment hmacDemo "secret" demoSt1 demoPd 6000).2.toOption.map
      fun po => po.1.verifiedAt) = some 6000 ∧
    (mapGet demoSt2.payments "pay_1").map Payment.verifiedAt = some 6000 ∧
    ((verifyPayment hmacDemo "secret" demoSt2 demoPd 7000).2.toOption.map
      fun po => po.1.verifiedAt) = some 7000 := by decide

/-- Amended claim C1: `verifyPayment` has no replay guard — a repeated
identical valid confirmation re-runs the whole success path: it overwrites
the payment record in place (same key, same map position) with a freshly
built record whose `createdAt` / `verifiedAt` are the replay time, and
returns that new record. The order map is unchanged (the order was already
`paid` with the same `paymentId`), exactly one payment record under the
payment id still exists afterwards, and the two responses coincide only
when the two call times do. -/
theorem C1_replay_not_idempotent (hmac : String → String → String)
    (keySecret : String) (st : ServiceState) (pd : PaymentData) (nowMs : Nat) (o : Order)
    (h1 : pd.razorpay_order_id ≠ "") (h2 : pd.razorpay_payment_id ≠ "")
    (h3 : pd.razorpay_signature ≠ "")
    (ho : mapGet st.orders pd.razorpay_order_id = some o)
    (hst : o.status = "paid") (hpid : o.paymentId = some pd.razorpay_payment_id)
    (hsig : hmac keySecret (pd.razorpay_order_id ++ "|" ++ pd.razorpay_payment_id) =
      pd.razorpay_signature)
    (hcnt : countKey st.payments pd.razorpay_payment_id = 1) :
    verifyPayment hmac keySecret st pd nowMs =
      ({ orders := st.orders
         payments := mapSet st.payments pd.razorpay_payment_id
           { id := pd.razorpay_payment_id
             orderId := pd.razorpay_order_id
             amount := o.amount
             currency := o.currency
             status := "captured"
             method := "card"
             userId := o.userId
             planType := o.planType
             plan := o.plan
             createdAt := nowMs
             verifiedAt := nowMs } },
        Except.ok
          ({ id := pd.razorpay_payment_id
             orderId := pd.razorpay_order_id
             amount := o.amount
             currency := o.currency
             status := "captured"
             method := "card"
             userId := o.userId
             planType := o.planType
             plan := o.plan
             createdAt := nowMs
             verifiedAt := nowMs }, o)) ∧
    countKey (verifyPayment hmac keySecret st pd nowMs).1.payments
      pd.razorpay_payment_id = 1 := by
  have ho' : ({ o with status := "paid", paymentId := some pd.razorpay_payment_id } : Order)
      = o := by
    cases o
    simp_all
  have horders : mapSet st.orders pd.razorpay_order_id
      { o with status := "paid", paymentId := some pd.razorpay_payment_id } = st.orders := by
    rw [ho']
    exact mapSet_of_mapGet_eq _ _ _ ho
  have hmain : verifyPayment hmac keySecret st pd nowMs =
      ({ orders := st.orders
         payments := mapSet st.payments pd.razorpay_payment_id
           { id := pd.razorpay_payment_id
             orderId := pd.razorpay_order_id
             amount := o.amount
             currency := o.currency
             status := "captured"
             method := "card"
             userId := o.userId
             planType := o.planType
             plan := o.plan
             createdAt := nowMs
             verifiedAt := nowMs } },
        Except.ok
          ({ id := pd.razorpay_payment_id
             orderId := pd.razorpay_order_id
             amount := o.amount
             currency := o.currency
             status := "captured"
             method := "card"
             userId := o.userId
             planType := o.planType
             plan := o.plan
             createdAt := nowMs
             verifiedAt := nowMs }, o)) := by
    simp [verifyPayment, h1, h2, h3, ho, hsig, ho',
      mapSet_of_mapGet_eq st.orders pd.razorpay_order_id o ho]
  refine ⟨hmain, ?_⟩
  rw [hmain]
  show countKey (mapSet st.payments pd.razorpay_payment_id _) pd.razorpay_payment_id = 1
  rw [countKey_mapSet, hcnt]
  simp

/-- Witness for the amended C1: the concrete replay of the demo
confirmation at time 7000 overwrites `pay_1` with fresh timestamps, keeps
the order map, and leaves exactly one payment record. -/
theorem C1_replay_not_idempotent_witness :
    verifyPayment hmacDemo "secret" demoSt2 demoPd 7000 =
      ({ orders := demoSt2.orders
         payments := mapSet demoSt2.payments "pay_1" demoPayment1Replay },
        Except.ok (demoPayment1Replay, demoOrder1Paid)) ∧
    countKey (verifyPayment hmacDemo "secret" demoSt2 demoPd 7000).1.payments
      "pay_1" = 1 :=
  C1_replay_not_idempotent hmacDemo "secret" demoSt2 demoPd 7000 demoOrder1Paid
    (by decide) (by decide) (by decide) (by decide) (by decide) (by decide) (by decide)
    (by decide)

/-- Claim C4 (code bug): `processWebhook` names the handlers it means to
dispatch to, but the class defines none of `handlePaymentCaptured`,
`handlePaymentFailed`, `handleOrderPaid` (only `handlePaymentFailure`
exists, under a different name), so all three recognized event types throw
a `TypeError` instead of invoking any transition; only an unrecognized
event type is the no-op that reports success. -/
theorem C4_webhook_dispatch_throws (st : ServiceState) (pl : String) :
    processWebhook st ⟨"payment.captured", pl⟩ =
      (st, Except.error "TypeError: this.handlePaymentCaptured is not a function") ∧
    processWebhook st ⟨"payment.failed", pl⟩ =
      (st, Except.error "TypeError: this.handlePaymentFailed is not a function") ∧
    processWebhook st ⟨"order.paid", pl⟩ =
      (st, Except.error "TypeError: this.handleOrderPaid is not a function") ∧
    processWebhook st ⟨"refund.processed", pl⟩ = (st, Except.ok ()) := by
  refine ⟨?_, ?_, ?_, ?_⟩ <;> simp [processWebhook]

/-- Counterexample to claim C5: the demo order is in status `failed`, yet a
delivered `order.paid` webhook does not transition it to `paid` — the
dispatch throws (`handleOrderPaid` is undefined), the state is unchanged
and no payment record exists. -/
theorem C5_counterexample :
    (mapGet demoStFailed.orders "order_1").map Order.status = some "failed" ∧
    processWebhook demoStFailed ⟨"order.paid", "raw_payload"⟩ =
      (demoStFailed, Except.error "TypeError: this.handleOrderPaid is not a function") ∧
    countKey demoStFailed.payments "pay_1" = 0 :=
  ⟨by decide, rfl, by decide⟩

/-- Amended claim C5: a `failed` order that later receives a validly signed
paid event recovers to `paid` with exactly one payment record created —
but only through the client-confirmation path (`verifyPayment`); the
`order.paid` webhook path cannot do it, since its handler method is
undefined and the dispatch throws. -/
theorem C5_failed_recovers_paid_via_confirmation (hmac : String → String → String)
    (keySecret : String) (st : ServiceState) (pd : PaymentData) (nowMs : Nat) (o : Order)
    (h1 : pd.razorpay_order_id ≠ "") (h2 : pd.razorpay_payment_id ≠ "")
    (h3 : pd.razorpay_signature ≠ "")
    (ho : mapGet st.orders pd.razorpay_order_id = some o)
    (_hst : o.status = "failed")
    (hsig : hmac keySecret (pd.razorpay_order_id ++ "|" ++ pd.razorpay_payment_id) =
      pd.razorpay_signature)
    (hcnt : countKey st.payments pd.razorpay_payment_id = 0) :
    verifyPayment hmac keySecret st pd nowMs =
      ({ orders := mapSet st.orders pd.razorpay_order_id
           { o with status := "paid", paymentId := some pd.razorpay_payment_id }
         payments := mapSet st.payments pd.razorpay_payment_id
           { id := pd.razorpay_payment_id
             orderId := pd.razorpay_order_id
             amount := o.amount
             currency := o.currency
             status := "captured"
             method := "card"
             userId := o.userId
             planType := o.planType
             plan := o.plan
             createdAt := nowMs
             verifiedAt := nowMs } },
        Except.ok
          ({ id := pd.razorpay_payment_id
             orderId := pd.razorpay_order_id
             amount := o.amount
             currency := o.currency
             status := "captured"
             method := "card"
             userId := o.userId
             planType := o.planType
             plan := o.plan
             createdAt := nowMs
             verifiedAt := nowMs },
           { o with status := "paid", paymentId := some pd.razorpay_payment_id })) ∧
    (mapGet (verifyPayment hmac keySecret st pd nowMs).1.orders
        pd.razorpay_order_id).map Order.status = some "paid" ∧
    countKey (verifyPayment hmac keySecret st pd nowMs).1.payments
      pd.razorpay_payment_id = 1 := by
  have hmain : verifyPayment hmac keySecret st pd nowMs =
      ({ orders := mapSet st.orders pd.razorpay_order_id
           { o with status := "paid", paymentId := some pd.razorpay_payment_id }
         payments := mapSet st.payments pd.razorpay_payment_id
           { id := pd.razorpay_payment_id
             orderId := pd.razorpay_order_id
             amount := o.amount
             currency := o.currency
             status := "captured"
             method := "card"
             userId := o.userId
             planType := o.planType
             plan := o.plan
             createdAt := nowMs
             verifiedAt := nowMs } },
        Except.ok
          ({ id := pd.razorpay_payment_id
             orderId := pd.razorpay_order_id
             amount := o.amount
             currency := o.currency
             status := "captured"
             method := "card"
             userId := o.userId
             planType := o.planType
             plan := o.plan
             createdAt := nowMs
             verifiedAt := nowMs },
           { o with status := "paid", paymentId := some pd.razorpay_payment_id })) := by
    simp [verifyPayment, h1, h2, h3, ho, hsig]
  refine ⟨hmain, ?_, ?_⟩
  · rw [hmain]
    simp [mapGet_mapSet_self]
  · rw [hmain]
    show countKey (mapSet st.payments pd.razorpay_payment_id _)
      pd.razorpay_payment_id = 1
    rw [countKey_mapSet, hcnt]
    simp

/-- Witness for the amended C5: the demo order failed at 5500 recovers to
`paid` through a correctly signed confirmation at 9000, creating exactly
one payment record. -/
theorem C5_failed_recovers_paid_via_confirmation_witness :
    (mapGet (verifyPayment hmacDemo "secret" demoStFailed demoPd 9000).1.orders
        "order_1").map Order.status = some "paid" ∧
    countKey (verifyPayment hmacDemo "secret" demoStFailed demoPd 9000).1.payments
      "pay_1" = 1 :=
  ((C5_failed_recovers_paid_via_confirmation hmacDemo "secret" demoStFailed demoPd 9000
    { demoOrder1 with
        status := "failed", error := some ⟨"Payment was declined"⟩, failedAt := some 5500 }
    (by decide) (by decide) (by decide) (by decide) (by decide) (by decide) (by decide)).2)

/-- Claim C6: every successful verification stores and returns a payment
whose `amount` and `currency` are copied from the stored order (the
conclusion does not depend on any client-supplied field of the
confirmation); in particular the `standard` plan (catalog price 299)
produces an order of 29900 minor units and, after verification, a stored
payment of 29900 minor units. -/
theorem C6_payment_amount_currency_from_order (hmac : String → String → String)
    (keySecret : String) (st : ServiceState) (pd : PaymentData) (nowMs : Nat)
    (st' : ServiceState) (p : Payment) (o' : Order) (o : Order)
    (ho : mapGet st.orders pd.razorpay_order_id = some o)
    (hv : verifyPayment hmac keySecret st pd nowMs = (st', Except.ok (p, o'))) :
    p.amount = o.amount ∧ p.currency = o.currency ∧
    (mapGet demoSt1.orders "order_1").map Order.amount = some 29900 ∧
    (mapGet demoSt2.payments "pay_1").map Payment.amount = some 29900 ∧
    (mapGet demoSt2.payments "pay_1").map Payment.currency = some "INR" := by
  obtain ⟨hp, -, -⟩ := verifyPayment_ok_spec hmac keySecret st pd nowMs st' p o' o ho hv
  exact ⟨by rw [hp], by rw [hp], by decide, by decide, by decide⟩

/-- Witness for C6: the demo verification copies 29900 / INR from the
standard-plan order into the payment. -/
theorem C6_payment_amount_currency_from_order_witness :
    demoPayment1.amount = demoOrder1.amount ∧
    demoPayment1.currency = demoOrder1.currency ∧
    (mapGet demoSt1.orders "order_1").map Order.amount = some 29900 ∧
    (mapGet demoSt2.payments "pay_1").map Payment.amount = some 29900 ∧
    (mapGet demoSt2.payments "pay_1").map Payment.currency = some "INR" :=
  C6_payment_amount_currency_from_order hmacDemo "secret" demoSt1 demoPd 6000
    demoSt2 demoPayment1 demoOrder1Paid demoOrder1 (by decide) rfl

/-- A captured payment for the history scenario, created (and verified) at
time `t`. -/
def payAt (pid oid uid : String) (t : Nat) : Payment :=
  { id := pid, orderId := oid, amount := 19900, currency := "INR", status := "captured",
    method := "card", userId := uid, planType := "basic",
    plan := { questions := 5, price := 199, name := "Basic Plan" },
    createdAt := t, verifiedAt := t }

/-- History scenario: three payments of user `u1` at T1 = 1000 < T2 = 2000
< T3 = 3000, with an unrelated payment of `u2` interleaved. -/
def demoHistSt : ServiceState :=
  { orders := []
    payments := [("p1", payAt "p1" "o1" "u1" 1000), ("p2", payAt "p2" "o2" "u1" 2000),
      ("px", payAt "px" "ox" "u2" 1500), ("p3", payAt "p3" "o3" "u1" 3000)] }

/-- Claim C9: `getUserPayments` returns exactly the payments owned by the
user (a permutation of their in-insertion-order projections), sorted by
`createdAt` descending, with ties kept in insertion order (the filter of
the output at any fixed creation time equals the filter of the insertion-
ordered input); in particular the u1 payments created at 1000 < 2000 <
3000 come back newest first. -/
theorem C9_history_sorted_desc (st : ServiceState) (uid : String) :
    (getUserPayments st uid).Perm (userPaymentsOf st uid) ∧
    (getUserPayments st uid).Pairwise (fun a b => b.createdAt ≤ a.createdAt) ∧
    (∀ t : Nat, (getUserPayments st uid).filter (fun e => e.createdAt = t) =
      (userPaymentsOf st uid).filter (fun e => e.createdAt = t)) ∧
    getUserPayments demoHistSt "u1" =
      [historyEntryOf (payAt "p3" "o3" "u1" 3000),
       historyEntryOf (payAt "p2" "o2" "u1" 2000),
       historyEntryOf (payAt "p1" "o1" "u1" 1000)] :=
  ⟨perm_sortDescByCreatedAt _, pairwise_sortDescByCreatedAt _,
    fun t => filter_sortDescByCreatedAt _ t, by decide⟩

/-- Claim C10: for a verified payment (linked from its order, amount copied
from the order, a multiple of 100), `getPaymentStatus` reports the amount
exactly as stored in minor units while `getUserPayments` lists the same
payment with the amount divided by 100, so the history figure times 100 is
the status figure. -/
theorem C10_history_major_units_status_minor_units (st : ServiceState)
    (oid uid pid : String) (o : Order) (p : Payment)
    (ho : mapGet st.orders oid = some o) (hpid : o.paymentId = some pid)
    (hp : mapGet st.payments pid = some p) (hamt : p.amount = o.amount)
    (huid : p.userId = uid) (hdvd : 100 ∣ o.amount) :
    getPaymentStatus st oid =
      some { order := { id := o.id, amount := o.amount, status := o.status,
                        createdAt := o.created_at }
             payment := some { id := p.id, status := p.status, method := p.method,
                               verifiedAt := p.verifiedAt } } ∧
    historyEntryOf p ∈ getUserPayments st uid ∧
    (historyEntryOf p).amount = p.amount / 100 ∧
    (historyEntryOf p).amount * 100 = o.amount := by
  refine ⟨?_, ?_, rfl, ?_⟩
  · simp [getPaymentStatus, ho, hpid, hp]
  · have hmem : p ∈ st.payments.map Prod.snd :=
      List.mem_map.mpr ⟨(pid, p), mem_of_mapGet_eq_some _ _ _ hp, rfl⟩
    have hmem' : historyEntryOf p ∈ userPaymentsOf st uid := by
      unfold userPaymentsOf
      exact List.mem_filterMap.mpr ⟨p, hmem, by simp [huid]⟩
    exact (perm_sortDescByCreatedAt _).mem_iff.mpr hmem'
  · show p.amount / 100 * 100 = o.amount
    rw [hamt]
    exact Nat.div_mul_cancel hdvd

/-- Witness for C10: in the demo state the status snapshot of `order_1`
reports 29900 minor units while the history entry for `pay_1` carries
29900 / 100 = 299 — the history figure times 100 is the status figure. -/
theorem C10_history_major_units_status_minor_units_witness :
    getPaymentStatus demoSt2 "order_1" =
      some { order := { id := demoOrder1Paid.id, amount := demoOrder1Paid.amount,
                        status := demoOrder1Paid.status,
                        createdAt := demoOrder1Paid.created_at }
             payment := some { id := demoPayment1.id, status := demoPayment1.status,
                               method := demoPayment1.method,
                               verifiedAt := demoPayment1.verifiedAt } } ∧
    historyEntryOf demoPayment1 ∈ getUserPayments demoSt2 "u1" ∧
    (historyEntryOf demoPayment1).amount = demoPayment1.amount / 100 ∧
    (historyEntryOf demoPayment1).amount * 100 = demoOrder1Paid.amount :=
  C10_history_major_units_status_minor_units demoSt2 "order_1" "u1" "pay_1"
    demoOrder1Paid demoPayment1 (by decide) (by decide) (by decide) (by decide)
    (by decide) (by decide)

end PaymentService
